import Mathlib

/-!
Verification development for the promotions-and-pricing core of the
Mithaas Delights storefront backend.

The Python sources are shallowly embedded as follows:
- money amounts and float arithmetic are modelled over `ℚ` (the values the
  claims exercise are exact decimals, where float and rational arithmetic
  agree); coordinates and the trigonometric distance computation are
  modelled over `ℝ`;
- Python's `round(x, 2)` is modelled by `round2` (round to nearest
  hundredth; Python ties half-to-even and Mathlib's `round` ties upward,
  which differ only at exact half-cent ties, never produced by the values
  each theorem evaluates);
- Python `None` becomes `Option.none`; a Python truthiness test
  `if x:` on an `Optional` numeric field tests `some a` with `a ≠ 0`;
- `raise HTTPException(status, detail)` becomes `Except.error ⟨status, detail⟩`;
  an unhandled Python `TypeError`/`ZeroDivisionError` (reachable when an
  `Optional` field needed by an arithmetic expression is `None`, or a
  divisor is `0`) is modelled as `Except.error ⟨500, "unhandled exception"⟩`
  or `Option.none`, depending on the function's embedded return type;
- MongoDB lookups become searches over the caller-supplied snapshot lists
  (`List.find?` models `find_one`, matching the first hit);
- purely cosmetic response fields (human-readable `message` strings with
  interpolated numbers, badge/display metadata, the `applied_offers`
  summary list) are elided from the embedded result records; every field
  any claim talks about is kept, `error` markers included;
- Python's stable `sorted(..., key=...)` is modelled by
  `List.insertionSort`; the discount amounts proved about below depend
  only on the sorted sequence of unit prices, which is the same for every
  stable or unstable sort by price.
-/

/-- Python's `round(x, 2)`: round to the nearest multiple of 1/100. -/
def round2 {α : Type} [LinearOrderedField α] [FloorRing α] (x : α) : α :=
  ((round (x * 100) : ℤ) : α) / 100

/-! ## delivery_utils.py -/

namespace DeliveryUtils

/-- Shop location coordinates (Indore). -/
noncomputable def SHOP_LAT : ℝ := 22.738152

noncomputable def SHOP_LON : ℝ := 75.831858

def FREE_DELIVERY_MIN_AMOUNT : ℚ := 1500

def FREE_DELIVERY_MAX_DISTANCE_KM : ℚ := 10

def PRICE_PER_KM_BEYOND_FREE : ℚ := 19

def MAX_DELIVERY_DISTANCE_KM : ℚ := 50

/-- `haversine_distance` from `delivery_utils.py`: great-circle distance in
kilometers via the Haversine formula, Earth radius 6371 km.  `math.radians x`
is `x * π / 180`. -/
noncomputable def haversine_distance (lat1 lon1 lat2 lon2 : ℝ) : ℝ :=
  2 * Real.arcsin (Real.sqrt
      (Real.sin ((lat2 * (Real.pi / 180) - lat1 * (Real.pi / 180)) / 2) ^ 2 +
        Real.cos (lat1 * (Real.pi / 180)) * Real.cos (lat2 * (Real.pi / 180)) *
          Real.sin ((lon2 * (Real.pi / 180) - lon1 * (Real.pi / 180)) / 2) ^ 2))
    * 6371

/-- The dictionary returned by `delivery_utils.calculate_delivery_charge`
(`message` elided; note `delivery_charge` is always a number here, `0`
even in the out-of-range branch). -/
structure DeliveryResult where
  distance_km : ℚ
  delivery_charge : ℚ
  is_free_delivery : Bool
  error : Option String
deriving Repr, DecidableEq

/-- `delivery_utils.calculate_delivery_charge` for `delivery_type="delivery"`,
from the line `distance = round(distance, 2)` onward: the caller supplies the
already-rounded distance (`round2 (haversine_distance SHOP_LAT SHOP_LON lat lon)`).
Branch order as in the source: free-delivery check, then max-distance check,
then the per-km charge (both arms of the source's final `if` compute
`PRICE_PER_KM_BEYOND_FREE * distance`). -/
def calculate_delivery_charge_from_distance (distance order_amount : ℚ) : DeliveryResult :=
  if order_amount ≥ FREE_DELIVERY_MIN_AMOUNT ∧ distance ≤ FREE_DELIVERY_MAX_DISTANCE_KM then
    { distance_km := distance, delivery_charge := 0, is_free_delivery := true, error := none }
  else if distance > MAX_DELIVERY_DISTANCE_KM then
    { distance_km := distance, delivery_charge := 0, is_free_delivery := false,
      error := some "Sorry, we currently deliver only within 50km (Indore city area)" }
  else
    { distance_km := distance,
      delivery_charge := round2 (PRICE_PER_KM_BEYOND_FREE * distance),
      is_free_delivery := false, error := none }

/-- The pickup branch of `calculate_delivery_charge`. -/
def pickup_result : DeliveryResult :=
  { distance_km := 0, delivery_charge := 0, is_free_delivery := true, error := none }

end DeliveryUtils

/-! ## enhanced_delivery_system.py -/

namespace EnhancedDelivery

noncomputable def SHOP_LATITUDE : ℝ := 22.738152

noncomputable def SHOP_LONGITUDE : ℝ := 75.831858

/-- `DeliveryConfig` constants. -/
def FREE_DELIVERY_THRESHOLD : ℚ := 1500

def FREE_DELIVERY_DISTANCE_KM : ℚ := 10

def BASE_DELIVERY_CHARGE : ℚ := 50

def DISTANCE_MULTIPLIER : ℚ := 5

def MAX_DELIVERY_DISTANCE_KM : ℚ := 50

def BASE_DISTANCE_KM : ℚ := 5

/-- `calculate_distance_haversine` from `enhanced_delivery_system.py`
(textually the same formula as `DeliveryUtils.haversine_distance`). -/
noncomputable def calculate_distance_haversine (lat1 lon1 lat2 lon2 : ℝ) : ℝ :=
  2 * Real.arcsin (Real.sqrt
      (Real.sin ((lat2 * (Real.pi / 180) - lat1 * (Real.pi / 180)) / 2) ^ 2 +
        Real.cos (lat1 * (Real.pi / 180)) * Real.cos (lat2 * (Real.pi / 180)) *
          Real.sin ((lon2 * (Real.pi / 180) - lon1 * (Real.pi / 180)) / 2) ^ 2))
    * 6371

/-- The dictionary returned by
`enhanced_delivery_system.calculate_delivery_charge`: in the out-of-range
branch `delivery_charge` is `None` and the two `free_delivery_*` keys are
absent, hence the `Option` types. -/
structure EDSResult where
  delivery_charge : Option ℚ
  distance_km : ℚ
  is_free_delivery : Bool
  delivery_time_estimate : String
  delivery_zone : String
  error : Option String
  free_delivery_eligible : Option Bool
  free_delivery_distance_eligible : Option Bool
deriving Repr, DecidableEq

/-- `enhanced_delivery_system.calculate_delivery_charge` for
`delivery_type="delivery"`, from the line `distance_km = round(distance_km, 2)`
onward (the caller supplies the rounded Haversine distance).  Branch order as
in the source: max-distance check, zone banding, banded base charge, free
delivery override, final rounding. -/
def calculate_delivery_charge_from_distance (distance_km order_amount : ℚ) : EDSResult :=
  if distance_km > MAX_DELIVERY_DISTANCE_KM then
    { delivery_charge := none, distance_km := distance_km, is_free_delivery := false,
      delivery_time_estimate := "Delivery not available", delivery_zone := "out_of_range",
      error := some "Delivery not available beyond 50.0km",
      free_delivery_eligible := none, free_delivery_distance_eligible := none }
  else
    let zone_time : String × String :=
      if distance_km ≤ 5 then ("city_center", "2-4 hours")
      else if distance_km ≤ 10 then ("city_extended", "4-6 hours")
      else if distance_km ≤ 20 then ("nearby_suburbs", "6-8 hours")
      else if distance_km ≤ 35 then ("extended_area", "1-2 days")
      else ("far_area", "2-3 days")
    let banded_charge : ℚ :=
      if distance_km ≤ BASE_DISTANCE_KM then BASE_DELIVERY_CHARGE
      else BASE_DELIVERY_CHARGE + (distance_km - BASE_DISTANCE_KM) * DISTANCE_MULTIPLIER
    let free : Bool :=
      order_amount ≥ FREE_DELIVERY_THRESHOLD ∧ distance_km ≤ FREE_DELIVERY_DISTANCE_KM
    let charge : ℚ := if free then 0 else banded_charge
    { delivery_charge := some (round2 charge), distance_km := distance_km,
      is_free_delivery := free,
      delivery_time_estimate := zone_time.2, delivery_zone := zone_time.1,
      error := none,
      free_delivery_eligible := some (order_amount ≥ FREE_DELIVERY_THRESHOLD),
      free_delivery_distance_eligible := some (distance_km ≤ FREE_DELIVERY_DISTANCE_KM) }

end EnhancedDelivery

/-! ## server.py — coupon routes -/

namespace Server

/-- `CouponType` enum. -/
inductive CouponType where
  | percentage
  | flat
  | buy_x_get_y
  | free_shipping
  | category_discount
deriving Repr, DecidableEq

/-- The enum's string `value`. -/
def CouponType.value : CouponType → String
  | .percentage => "percentage"
  | .flat => "flat"
  | .buy_x_get_y => "buy_x_get_y"
  | .free_shipping => "free_shipping"
  | .category_discount => "category_discount"

/-- `CartItem` model (`product_name` and display fields elided). -/
structure CartItem where
  product_id : String
  variant_weight : String
  quantity : ℕ
  price : ℚ
deriving Repr, DecidableEq

/-- The slice of a product document read by the coupon handlers:
`apply_buy_x_get_y_coupon` reads only the keys of `cart_products` (the ids)
and `apply_category_coupon` additionally reads `category`. -/
structure SProduct where
  id : String
  category : String
deriving Repr, DecidableEq

/-- `Coupon` model, restricted to the fields the apply handlers read
(identifiers, timestamps and display fields elided; `expiry_date` is an
abstract rational timestamp). -/
structure Coupon where
  code : String
  discount_type : CouponType
  discount_percentage : Option ℕ
  discount_amount : Option ℚ
  max_discount_amount : Option ℚ
  min_order_amount : ℚ
  product_ids : List String
  category_names : List String
  buy_quantity : Option ℕ
  get_quantity : Option ℕ
  buy_product_ids : List String
  get_product_ids : List String
  expiry_date : ℚ
  is_active : Bool
  usage_limit : Option ℕ
  per_user_limit : Option ℕ
  used_count : ℕ
deriving Repr, DecidableEq

/-- `CouponApply` request model. -/
structure CouponApply where
  code : String
  order_amount : ℚ
  cart_items : List CartItem
  user_id : Option String
deriving Repr, DecidableEq

/-- `raise HTTPException(status_code, detail)`. -/
structure HTTPError where
  status : ℕ
  detail : String
deriving Repr, DecidableEq

/-- Union of the success dictionaries the four apply handlers return
(fields absent from a handler's dictionary are `none`; purely cosmetic
string fields elided). -/
structure CouponResult where
  valid : Bool
  discount_type : String
  discount_amount : ℚ
  final_amount : ℚ
  discount_percentage : Option ℕ
  free_items_count : Option ℕ
  delivery_discount : Option ℚ
deriving Repr, DecidableEq

/-- Python truthiness of an `Optional` numeric field: `None` and `0` are
falsy. -/
def truthy : Option ℚ → Bool
  | none => false
  | some a => a ≠ 0

/-- The cap step `if coupon_obj.max_discount_amount: discount = min(discount,
coupon_obj.max_discount_amount)` shared by the standard and category
handlers. -/
def applyCap (cap : Option ℚ) (d : ℚ) : ℚ :=
  if truthy cap then min d (cap.getD 0) else d

/-- The success dictionary of `apply_standard_coupon`, built from the
(capped, unrounded) discount. -/
def standard_return (c : Coupon) (req : CouponApply) (discount : ℚ) :
    Except HTTPError CouponResult :=
  .ok { valid := true, discount_type := c.discount_type.value,
        discount_amount := round2 discount,
        final_amount := round2 (req.order_amount - discount),
        discount_percentage :=
          if c.discount_type = .percentage then c.discount_percentage else none,
        free_items_count := none, delivery_discount := none }

/-- Discount computation of `apply_standard_coupon` once the eligible base
is known: the flat arm (`discount_type == FLAT and discount_amount`
truthy) ignores the base entirely; the percentage arm multiplies by
`coupon_obj.discount_percentage`, which raises an unhandled `TypeError`
when that field is `None` (modelled as a 500 error); then the
`max_discount_amount` cap is applied. -/
def standard_finish (c : Coupon) (req : CouponApply) (base : ℚ) :
    Except HTTPError CouponResult :=
  if c.discount_type = .flat ∧ truthy c.discount_amount then
    standard_return c req (applyCap c.max_discount_amount (c.discount_amount.getD 0))
  else
    match c.discount_percentage with
    | none => .error ⟨500, "unhandled exception"⟩
    | some p => standard_return c req (applyCap c.max_discount_amount (base * (p : ℚ) / 100))

/-- `apply_standard_coupon` (percentage or flat).  The `cart_products`
argument of the source is unused there and omitted here. -/
def apply_standard_coupon (c : Coupon) (req : CouponApply) :
    Except HTTPError CouponResult :=
  if c.product_ids ≠ [] then
    if req.cart_items = [] then
      .error ⟨400, "Cart items required for product-specific coupons"⟩
    else
      if req.cart_items.filter (fun i => decide (i.product_id ∈ c.product_ids)) = [] then
        .error ⟨400, "This coupon is not applicable to any items in your cart"⟩
      else
        if ((req.cart_items.filter fun i => decide (i.product_id ∈ c.product_ids)).map
              fun i => i.price * (i.quantity : ℚ)).sum < c.min_order_amount then
          .error ⟨400, "Minimum order amount required for eligible products"⟩
        else
          standard_finish c req
            ((req.cart_items.filter fun i => decide (i.product_id ∈ c.product_ids)).map
              fun i => i.price * (i.quantity : ℚ)).sum
  else
    if req.order_amount < c.min_order_amount then
      .error ⟨400, "Minimum order amount required"⟩
    else standard_finish c req req.order_amount

/-- The buy scope of `apply_buy_x_get_y_coupon`:
`coupon_obj.buy_product_ids if coupon_obj.buy_product_ids else
list(cart_products.keys())`. -/
def buyScope (c : Coupon) (cart_products : List SProduct) : List String :=
  if c.buy_product_ids = [] then cart_products.map (·.id) else c.buy_product_ids

/-- The eligible cart lines of `apply_buy_x_get_y_coupon`. -/
def eligibleItems (c : Coupon) (req : CouponApply) (cart_products : List SProduct) :
    List CartItem :=
  req.cart_items.filter fun i => decide (i.product_id ∈ buyScope c cart_products)

/-- The discount loop of `apply_buy_x_get_y_coupon`: walk the price-sorted
eligible lines, zeroing units until `remaining_free` runs out. -/
def bxgyLoop : List CartItem → ℕ → ℚ
  | [], _ => 0
  | _, 0 => 0
  | item :: rest, remaining =>
    let free_qty := min remaining item.quantity
    item.price * (free_qty : ℚ) + bxgyLoop rest (remaining - free_qty)

/-- `apply_buy_x_get_y_coupon`.  The Python guard
`if not coupon_obj.buy_quantity or not coupon_obj.get_quantity` treats both
`None` and `0` as invalid configuration — encoded as `Option.getD 0 = 0`
(`None` and `some 0` both hit the guard, so past it the fields are
`some b`/`some g` with `b, g ≠ 0` and `getD 0` is their value).
`total_eligible_qty` is the sum of eligible quantities;
`sets_qualified = total_eligible_qty / buy_quantity` (integer division);
`free_items_count = sets_qualified * get_quantity`; the discount loop walks
the price-sorted eligible lines (Python's stable `sorted(...,
key=lambda x: x.price)`, modelled by `insertionSort`). -/
def apply_buy_x_get_y_coupon (c : Coupon) (req : CouponApply)
    (cart_products : List SProduct) : Except HTTPError CouponResult :=
  if c.buy_quantity.getD 0 = 0 ∨ c.get_quantity.getD 0 = 0 then
    .error ⟨400, "Invalid Buy X Get Y coupon configuration"⟩
  else if req.cart_items = [] then
    .error ⟨400, "Cart items required for Buy X Get Y coupons"⟩
  else if eligibleItems c req cart_products = [] then
    .error ⟨400, "No eligible products found for this offer"⟩
  else if ((eligibleItems c req cart_products).map (·.quantity)).sum <
      c.buy_quantity.getD 0 then
    .error ⟨400, "Buy at least " ++ toString (c.buy_quantity.getD 0) ++
      " eligible items to get " ++ toString (c.get_quantity.getD 0) ++ " free"⟩
  else
    .ok { valid := true, discount_type := "buy_x_get_y",
          discount_amount := round2 (bxgyLoop
            (List.insertionSort (fun x y : CartItem => x.price ≤ y.price)
              (eligibleItems c req cart_products))
            (((eligibleItems c req cart_products).map (·.quantity)).sum /
              c.buy_quantity.getD 0 * c.get_quantity.getD 0)),
          final_amount := round2 (req.order_amount - bxgyLoop
            (List.insertionSort (fun x y : CartItem => x.price ≤ y.price)
              (eligibleItems c req cart_products))
            (((eligibleItems c req cart_products).map (·.quantity)).sum /
              c.buy_quantity.getD 0 * c.get_quantity.getD 0)),
          discount_percentage := none,
          free_items_count :=
            some (((eligibleItems c req cart_products).map (·.quantity)).sum /
              c.buy_quantity.getD 0 * c.get_quantity.getD 0),
          delivery_discount := none }

/-- `apply_category_coupon`.  A cart line whose product is absent from
`cart_products` is simply not eligible (`product and product.get("category")`). -/
def apply_category_coupon (c : Coupon) (req : CouponApply)
    (cart_products : List SProduct) : Except HTTPError CouponResult := do
  if c.category_names = [] then
    throw ⟨400, "No categories specified for this coupon"⟩
  if req.cart_items = [] then
    throw ⟨400, "Cart items required for category coupons"⟩
  let eligible := req.cart_items.filter fun i =>
    match cart_products.find? (fun p => p.id == i.product_id) with
    | some p => decide (p.category ∈ c.category_names)
    | none => false
  if eligible = [] then
    throw ⟨400, "No items found in eligible categories"⟩
  let eligible_amount := (eligible.map fun i => i.price * (i.quantity : ℚ)).sum
  if eligible_amount < c.min_order_amount then
    throw ⟨400, "Minimum order amount required for eligible categories"⟩
  let discount ←
    match c.discount_percentage with
    | none => throw (⟨500, "unhandled exception"⟩ : HTTPError)
    | some p => pure (eligible_amount * (p : ℚ) / 100)
  let discount := applyCap c.max_discount_amount discount
  pure { valid := true, discount_type := "category_discount",
         discount_amount := round2 discount,
         final_amount := round2 (req.order_amount - discount),
         discount_percentage := c.discount_percentage,
         free_items_count := none, delivery_discount := none }

/-- `apply_free_shipping_coupon` (`delivery_discount` hard-coded to 50). -/
def apply_free_shipping_coupon (c : Coupon) (req : CouponApply) :
    Except HTTPError CouponResult :=
  if req.order_amount < c.min_order_amount then
    .error ⟨400, "Minimum order amount required for free shipping"⟩
  else
    .ok { valid := true, discount_type := "free_shipping",
          discount_amount := 50, final_amount := req.order_amount,
          discount_percentage := none, free_items_count := none,
          delivery_discount := some 50 }

/-- Python truthiness of `Optional[str]`: `None` and `""` are falsy. -/
def truthyStr : Option String → Bool
  | none => false
  | some s => s ≠ ""

/-- Python truthiness of an `Optional[int]` count. -/
def truthyNat : Option ℕ → Bool
  | none => false
  | some n => n ≠ 0

/-- The validation chain and dispatch of `POST /coupons/apply` after the
coupon has been found.  `now` is the current timestamp,
`user_usage_count` the count the source reads from the orders collection. -/
def apply_coupon_found (c : Coupon) (now : ℚ) (user_usage_count : ℕ)
    (req : CouponApply) (cart_products : List SProduct) :
    Except HTTPError CouponResult := do
  if ¬ c.is_active then
    throw ⟨400, "Coupon is inactive"⟩
  if c.expiry_date < now then
    throw ⟨400, "Coupon has expired"⟩
  if truthyNat c.usage_limit ∧ c.usage_limit.getD 0 ≤ c.used_count then
    throw ⟨400, "Coupon usage limit reached"⟩
  if truthyNat c.per_user_limit ∧ truthyStr req.user_id ∧
      c.per_user_limit.getD 0 ≤ user_usage_count then
    throw ⟨400, "Per-user coupon limit reached"⟩
  match c.discount_type with
  | .buy_x_get_y => apply_buy_x_get_y_coupon c req cart_products
  | .category_discount => apply_category_coupon c req cart_products
  | .free_shipping => apply_free_shipping_coupon c req
  | _ => apply_standard_coupon c req

/-- `POST /coupons/apply`: resolve the coupon by upper-cased code against the
stored coupons (stored codes are upper-cased by `create_coupon`), 404 when
none matches, then validate and dispatch. -/
def apply_coupon (coupons : List Coupon) (now : ℚ) (user_usage_count : ℕ)
    (req : CouponApply) (cart_products : List SProduct) :
    Except HTTPError CouponResult :=
  match coupons.find? (fun c => c.code == req.code.toUpper) with
  | none => .error ⟨404, "Invalid coupon code"⟩
  | some c => apply_coupon_found c now user_usage_count req cart_products

/-- Unit-price expansion of a list of cart lines: each line contributes
`quantity` copies of its unit price. -/
def unitPrices (l : List CartItem) : List ℚ :=
  l.flatMap fun i => List.replicate i.quantity i.price

/-- Specification-side notion for BuyXGetY: the total price of the `n`
cheapest eligible units, taken in ascending unit-price order (all eligible
units when `n` exceeds their number). -/
def cheapestUnitsTotal (l : List CartItem) (n : ℕ) : ℚ :=
  ((List.insertionSort (· ≤ ·) (unitPrices l)).take n).sum

end Server

/-! ## cart_sync_system.py -/

namespace CartSync

/-- `CartItemModel`. -/
structure CartItemModel where
  product_id : String
  variant_weight : String
  quantity : ℕ
  price : ℚ
deriving Repr, DecidableEq

/-- A product variant as read by `validate_cart_items` (`v["weight"]`,
`v["price"]`, `v.get("is_available", True)`, `v.get("stock", 0)`). -/
structure Variant where
  weight : String
  price : ℚ
  is_available : Bool
  stock : ℕ
deriving Repr, DecidableEq

/-- A product document as read by `validate_cart_items`. -/
structure CSProduct where
  id : String
  name : String
  is_available : Bool
  is_sold_out : Bool
  variants : List Variant
deriving Repr, DecidableEq

/-- `CartValidationResult` (`invalid_items` entries pair the dropped item
with its `reason` string). -/
structure CartValidationResult where
  valid_items : List CartItemModel
  invalid_items : List (CartItemModel × String)
  total_amount : ℚ
  warnings : List String
deriving Repr, DecidableEq

/-- Outcome of the per-item body of the `validate_cart_items` loop. -/
inductive ItemOutcome where
  | valid (updated : CartItemModel) (warning : Option String)
  | invalid (reason : String)
deriving Repr, DecidableEq

/-- One iteration of the `validate_cart_items` loop: product lookup,
availability check, variant lookup, stock check, then price-drift
correction (which keeps the line but emits the only kind of warning the
function ever appends). -/
def validate_item (products : List CSProduct) (item : CartItemModel) : ItemOutcome :=
  match products.find? (fun p => p.id == item.product_id) with
  | none => .invalid "Product not found"
  | some p =>
    if ¬ p.is_available ∨ p.is_sold_out then .invalid "Product not available"
    else
      match p.variants.find? (fun v => v.weight == item.variant_weight) with
      | none => .invalid "Variant not found"
      | some v =>
        if ¬ v.is_available ∨ v.stock < item.quantity then .invalid "Insufficient stock"
        else if item.price ≠ v.price then
          .valid { item with price := v.price }
            (some ("Price updated for " ++ p.name ++ " (" ++ item.variant_weight ++ ")"))
        else .valid item none

/-- `validate_cart_items`: fold the loop over the cart lines in order;
`total_amount` is the final `sum(item.price * item.quantity for item in
valid_items)` over the (price-corrected) surviving lines. -/
def validate_cart_items (products : List CSProduct) :
    List CartItemModel → CartValidationResult
  | [] => { valid_items := [], invalid_items := [], total_amount := 0, warnings := [] }
  | item :: rest =>
    let r := validate_cart_items products rest
    match validate_item products item with
    | .invalid reason =>
      { valid_items := r.valid_items,
        invalid_items := (item, reason) :: r.invalid_items,
        total_amount := r.total_amount, warnings := r.warnings }
    | .valid upd w =>
      { valid_items := upd :: r.valid_items,
        invalid_items := r.invalid_items,
        total_amount := upd.price * (upd.quantity : ℚ) + r.total_amount,
        warnings := match w with | some s => s :: r.warnings | none => r.warnings }

end CartSync

/-! ## offers_system.py -/

namespace OffersSystem

/-- A cart item dictionary as read by `apply_offers_to_cart`
(`item.get("id")`, `item.get("category")`, `item.get("price", 0)`,
`item.get("quantity", 1)`). -/
structure OItem where
  id : String
  category : String
  price : ℚ
  quantity : ℕ
deriving Repr, DecidableEq

/-- `Offer` model restricted to the fields `apply_offers_to_cart` and
`_calculate_offer_discount` read. -/
structure Offer where
  offer_type : String
  discount_percentage : Option ℕ
  discount_amount : Option ℚ
  max_discount : Option ℚ
  buy_quantity : Option ℕ
  get_quantity : Option ℕ
  applicable_product_ids : List String
  category_names : List String
  stackable : Bool
deriving Repr, DecidableEq

/-- `_calculate_offer_discount`.  `none` models an unhandled Python
exception: a `TypeError` when an `Optional` field required by the active
arm is `None`, or the `ZeroDivisionError` of `item_quantity //
offer.buy_quantity` when `buy_quantity` is `0`.  Offer types other than the
three handled arms fall through to `return 0`. -/
def calculate_offer_discount (offer : Offer) (item : OItem) : Option ℚ :=
  if offer.offer_type = "percentage" then
    match offer.discount_percentage with
    | none => none
    | some pct =>
      let discount := item.price * (pct : ℚ) / 100 * (item.quantity : ℚ)
      some (if Server.truthy offer.max_discount
            then min discount (offer.max_discount.getD 0) else discount)
  else if offer.offer_type = "flat_discount" then
    match offer.discount_amount with
    | none => none
    | some a => some (min (a * (item.quantity : ℚ)) (item.price * (item.quantity : ℚ)))
  else if offer.offer_type = "buy_x_get_y" then
    match offer.buy_quantity with
    | none => none
    | some bq =>
      if bq ≤ item.quantity then
        if bq = 0 then none
        else
          match offer.get_quantity with
          | none => none
          | some gq =>
            some (min ((item.quantity / bq * gq : ℕ) * item.price)
                      (item.price * (item.quantity : ℚ)))
      else some 0
  else some 0

/-- The inner offer loop of `apply_offers_to_cart` for one cart item:
accumulate `item_discount`, tracking whether `item_offers` is nonempty for
the stackability check; an offer is applicable when the item's id is in
`applicable_product_ids`, or its category is in `category_names`, or both
scope lists are empty (global offer); only strictly positive discounts are
recorded. -/
def offerLoop (item : OItem) : List Offer → ℚ → Bool → Option ℚ
  | [], acc, _ => some acc
  | offer :: rest, acc, has_offers =>
    let is_applicable :=
      item.id ∈ offer.applicable_product_ids ∨
      item.category ∈ offer.category_names ∨
      (offer.applicable_product_ids = [] ∧ offer.category_names = [])
    if ¬ is_applicable then offerLoop item rest acc has_offers
    else if ¬ offer.stackable ∧ has_offers then offerLoop item rest acc has_offers
    else
      match calculate_offer_discount offer item with
      | none => none
      | some discount =>
        if 0 < discount then offerLoop item rest (acc + discount) true
        else offerLoop item rest acc has_offers

/-- One output entry of `apply_offers_to_cart` (`item_copy` with its
`offer_discount` and clamped `final_price`; the `applied_offers` badge
metadata is display-only and elided). -/
structure OItemOut where
  item : OItem
  offer_discount : ℚ
  final_price : ℚ
deriving Repr, DecidableEq

/-- Return value of `apply_offers_to_cart`. -/
structure OffersResult where
  items : List OItemOut
  total_discount : ℚ
deriving Repr, DecidableEq

/-- `apply_offers_to_cart` over the already-fetched active offers:
per item, run the offer loop, report `final_price = max(0, price -
item_discount)`, and add the (unclamped) `item_discount` into
`total_discount`. -/
def apply_offers_to_cart (offers : List Offer) :
    List OItem → Option OffersResult
  | [] => some { items := [], total_discount := 0 }
  | item :: rest => do
    let item_discount ← offerLoop item offers 0 false
    let r ← apply_offers_to_cart offers rest
    some { items := { item := item, offer_discount := item_discount,
                      final_price := max 0 (item.price - item_discount) } :: r.items,
           total_discount := item_discount + r.total_discount }

end OffersSystem

/-! ## Concrete inputs used by witnesses and counterexamples -/

namespace Examples

/-- A coupon skeleton with neutral settings, specialised per example. -/
def couponBase : Server.Coupon :=
  { code := "SAVE20", discount_type := .percentage, discount_percentage := none,
    discount_amount := none, max_discount_amount := none, min_order_amount := 0,
    product_ids := [], category_names := [], buy_quantity := none,
    get_quantity := none, buy_product_ids := [], get_product_ids := [],
    expiry_date := 100, is_active := true, usage_limit := none,
    per_user_limit := none, used_count := 0 }

/-- BuyXGetY coupon of the spec example: buy 2 get 1, whole-cart scope. -/
def bxgyCoupon : Server.Coupon :=
  { couponBase with
    code := "B2G1", discount_type := Server.CouponType.buy_x_get_y,
    buy_quantity := some 2, get_quantity := some 1 }

/-- BuyXGetY coupon with `get_quantity = 0`. -/
def bxgyZeroCoupon : Server.Coupon :=
  { bxgyCoupon with get_quantity := some 0 }

/-- Cart of the spec example: three eligible units priced 100, 150, 200. -/
def bxgyCart : List Server.CartItem :=
  [ { product_id := "p1", variant_weight := "250g", quantity := 1, price := 100 },
    { product_id := "p2", variant_weight := "250g", quantity := 1, price := 150 },
    { product_id := "p3", variant_weight := "250g", quantity := 1, price := 200 } ]

/-- Apply request for the spec example (eligible total 450). -/
def bxgyReq : Server.CouponApply :=
  { code := "B2G1", order_amount := 450, cart_items := bxgyCart, user_id := none }

/-- Catalog snapshot for the cart above. -/
def bxgyProds : List Server.SProduct :=
  [ { id := "p1", category := "sweets" }, { id := "p2", category := "sweets" },
    { id := "p3", category := "sweets" } ]

/-- Expected successful result of the spec example: discount 100, 450 → 350. -/
def bxgyResult : Server.CouponResult :=
  { valid := true, discount_type := "buy_x_get_y", discount_amount := 100,
    final_amount := 350, discount_percentage := none,
    free_items_count := some 1, delivery_discount := none }

/-- Smaller cart for the `get_quantity = 0` counterexample: two eligible
units, so `eligible_qty = 2 ≥ buy_quantity` and
`floor(2/2) * 0 = 0` free units are owed under the claim's reading. -/
def bxgyZeroReq : Server.CouponApply :=
  { code := "B2G1", order_amount := 200,
    cart_items := [{ product_id := "p1", variant_weight := "250g", quantity := 2, price := 100 }],
    user_id := none }

/-- Flat-amount coupon of ₹500 with no minimum and no cap. -/
def flatCoupon : Server.Coupon :=
  { couponBase with
    code := "FLAT500", discount_type := Server.CouponType.flat,
    discount_amount := some 500 }

/-- A ₹200 global-scope order for the flat coupon. -/
def flatReq : Server.CouponApply :=
  { code := "FLAT500", order_amount := 200, cart_items := [], user_id := none }

/-- Global 10% coupon with no cap. -/
def pctCoupon : Server.Coupon :=
  { couponBase with
    code := "PCT10", discount_type := Server.CouponType.percentage,
    discount_percentage := some 10 }

/-- A ₹1000 order for the percentage coupon. -/
def pctReq : Server.CouponApply :=
  { code := "PCT10", order_amount := 1000, cart_items := [], user_id := none }

/-- Expected result of the ₹500 flat coupon on the ₹200 order. -/
def flatResult : Server.CouponResult :=
  { valid := true, discount_type := "flat", discount_amount := 500,
    final_amount := -300, discount_percentage := none,
    free_items_count := none, delivery_discount := none }

/-- Expected result of the global 10% coupon on the ₹1000 order. -/
def pctResult : Server.CouponResult :=
  { valid := true, discount_type := "percentage", discount_amount := 100,
    final_amount := 900, discount_percentage := some 10,
    free_items_count := none, delivery_discount := none }

/-- Request with an unknown coupon code. -/
def unknownReq : Server.CouponApply :=
  { code := "SAVE20", order_amount := 500, cart_items := [], user_id := none }

/-- Catalog snapshot for the cart-sync examples: one product with one
in-stock variant priced 100. -/
def csProducts : List CartSync.CSProduct :=
  [ { id := "p1", name := "Kaju Katli", is_available := true, is_sold_out := false,
      variants := [{ weight := "250g", price := 100, is_available := true, stock := 5 }] } ]

/-- A cart line that reconciles cleanly against `csProducts`. -/
def csGood : CartSync.CartItemModel :=
  { product_id := "p1", variant_weight := "250g", quantity := 2, price := 100 }

/-- A cart line whose product is absent from `csProducts`. -/
def csBad : CartSync.CartItemModel :=
  { product_id := "p404", variant_weight := "250g", quantity := 1, price := 50 }

/-- A global, stackable flat ₹80 auto-offer. -/
def flat80Offer : OffersSystem.Offer :=
  { offer_type := "flat_discount", discount_percentage := none,
    discount_amount := some 80, max_discount := none, buy_quantity := none,
    get_quantity := none, applicable_product_ids := [], category_names := [],
    stackable := true }

/-- A single cart item priced 100 for the offers example. -/
def offerItem : OffersSystem.OItem :=
  { id := "p1", category := "sweets", price := 100, quantity := 1 }

end Examples

/-! # Theorems -/

/-! ## Rounding helpers -/

theorem round2_of_mul_eq {x : ℚ} {n : ℤ} (h : x * 100 = (n : ℚ)) :
    round2 x = (n : ℚ) / 100 := by
  rw [round2, h, round_intCast]

theorem round2_nonneg {x : ℚ} (h : 0 ≤ x) : 0 ≤ round2 x := by
  have hr : (0 : ℤ) ≤ round (x * 100) := by
    rw [round_eq]
    exact Int.le_floor.mpr (by push_cast; linarith)
  rw [round2]
  positivity

theorem round2_zero : round2 (0 : ℚ) = 0 := by
  have h := round2_of_mul_eq (x := (0 : ℚ)) (n := 0) (by norm_num)
  simpa using h

/-! ## C9 — Haversine symmetry and self-distance -/

theorem sin_half_sub_sq_comm (x y : ℝ) :
    Real.sin ((x - y) / 2) ^ 2 = Real.sin ((y - x) / 2) ^ 2 := by
  rw [show (x - y) / 2 = -((y - x) / 2) by ring, Real.sin_neg, neg_sq]

theorem haversine_distance_symm (lat1 lon1 lat2 lon2 : ℝ) :
    DeliveryUtils.haversine_distance lat1 lon1 lat2 lon2 =
      DeliveryUtils.haversine_distance lat2 lon2 lat1 lon1 := by
  unfold DeliveryUtils.haversine_distance
  rw [sin_half_sub_sq_comm, sin_half_sub_sq_comm (lon2 * (Real.pi / 180)),
    mul_comm (Real.cos (lat1 * (Real.pi / 180)))]

theorem haversine_distance_self (lat lon : ℝ) :
    DeliveryUtils.haversine_distance lat lon lat lon = 0 := by
  unfold DeliveryUtils.haversine_distance
  simp

theorem calculate_distance_haversine_eq :
    EnhancedDelivery.calculate_distance_haversine = DeliveryUtils.haversine_distance :=
  rfl

/-- C9: for all coordinate pairs, both Haversine implementations
(`delivery_utils.haversine_distance` and
`enhanced_delivery_system.calculate_distance_haversine`, Earth radius
6371 km) are symmetric in their two endpoints and give distance 0 from a
point to itself. -/
theorem haversine_symm_and_self (lat1 lon1 lat2 lon2 : ℝ) :
    DeliveryUtils.haversine_distance lat1 lon1 lat2 lon2 =
      DeliveryUtils.haversine_distance lat2 lon2 lat1 lon1 ∧
    DeliveryUtils.haversine_distance lat1 lon1 lat1 lon1 = 0 ∧
    EnhancedDelivery.calculate_distance_haversine lat1 lon1 lat2 lon2 =
      EnhancedDelivery.calculate_distance_haversine lat2 lon2 lat1 lon1 ∧
    EnhancedDelivery.calculate_distance_haversine lat1 lon1 lat1 lon1 = 0 := by
  rw [calculate_distance_haversine_eq]
  exact ⟨haversine_distance_symm lat1 lon1 lat2 lon2,
    haversine_distance_self lat1 lon1,
    haversine_distance_symm lat1 lon1 lat2 lon2,
    haversine_distance_self lat1 lon1⟩

/-! ## C2 — out-of-range delivery quotes -/

/-- C2 (amended): when the rounded distance exceeds the 50 km maximum, both
implementations return a terminal result carrying an explicit error marker
and never a banded charge; `enhanced_delivery_system` reports the charge as
absent (`None`), while `delivery_utils` reports a numeric
`delivery_charge` of `0` alongside its error marker. -/
theorem delivery_out_of_range (d amt : ℚ) (h : DeliveryUtils.MAX_DELIVERY_DISTANCE_KM < d) :
    DeliveryUtils.calculate_delivery_charge_from_distance d amt =
      { distance_km := d, delivery_charge := 0, is_free_delivery := false,
        error := some "Sorry, we currently deliver only within 50km (Indore city area)" } ∧
    EnhancedDelivery.calculate_delivery_charge_from_distance d amt =
      { delivery_charge := none, distance_km := d, is_free_delivery := false,
        delivery_time_estimate := "Delivery not available", delivery_zone := "out_of_range",
        error := some "Delivery not available beyond 50.0km",
        free_delivery_eligible := none, free_delivery_distance_eligible := none } := by
  rw [DeliveryUtils.MAX_DELIVERY_DISTANCE_KM] at h
  constructor
  · rw [DeliveryUtils.calculate_delivery_charge_from_distance, if_neg, if_pos]
    · rw [DeliveryUtils.MAX_DELIVERY_DISTANCE_KM]; exact h
    · rw [DeliveryUtils.FREE_DELIVERY_MAX_DISTANCE_KM]
      rintro ⟨-, h10⟩
      linarith
  · rw [EnhancedDelivery.calculate_delivery_charge_from_distance, if_pos]
    rw [EnhancedDelivery.MAX_DELIVERY_DISTANCE_KM]; exact h

/-- Witness for `delivery_out_of_range` at distance 60 km. -/
theorem delivery_out_of_range_witness :
    DeliveryUtils.MAX_DELIVERY_DISTANCE_KM < (60 : ℚ) ∧
    (DeliveryUtils.calculate_delivery_charge_from_distance 60 100).delivery_charge = 0 ∧
    (EnhancedDelivery.calculate_delivery_charge_from_distance 60 100).delivery_charge = none := by
  have h : DeliveryUtils.MAX_DELIVERY_DISTANCE_KM < (60 : ℚ) := by
    rw [DeliveryUtils.MAX_DELIVERY_DISTANCE_KM]; norm_num
  refine ⟨h, ?_, ?_⟩
  · rw [(delivery_out_of_range 60 100 h).1]
  · rw [(delivery_out_of_range 60 100 h).2]

/-- Counterexample to C2 as stated: at distance 60 km (beyond the 50 km
maximum) `delivery_utils.calculate_delivery_charge` returns the error
marker together with a numeric `delivery_charge` equal to `0` — the charge
is neither absent nor non-zero. -/
theorem delivery_out_of_range_zero_charge :
    (DeliveryUtils.calculate_delivery_charge_from_distance 60 100).delivery_charge = 0 ∧
    (DeliveryUtils.calculate_delivery_charge_from_distance 60 100).error ≠ none := by
  have hfree : ¬ ((100 : ℚ) ≥ DeliveryUtils.FREE_DELIVERY_MIN_AMOUNT ∧
      (60 : ℚ) ≤ DeliveryUtils.FREE_DELIVERY_MAX_DISTANCE_KM) := by
    rw [DeliveryUtils.FREE_DELIVERY_MIN_AMOUNT]
    rintro ⟨h1, -⟩
    norm_num at h1
  have hmax : (60 : ℚ) > DeliveryUtils.MAX_DELIVERY_DISTANCE_KM := by
    rw [DeliveryUtils.MAX_DELIVERY_DISTANCE_KM]; norm_num
  rw [DeliveryUtils.calculate_delivery_charge_from_distance, if_neg hfree, if_pos hmax]
  exact ⟨rfl, by simp⟩

/-! ## C5 — the banded charge formula -/

/-- C5: for a within-range delivery quote that does not qualify for the
free-delivery override, both implementations charge
`base_charge + max(0, distance - base_distance) * per_km_rate` rounded to
2 decimals — with `base_charge = 50`, `base_distance = 5`, `per_km_rate = 5`
in `enhanced_delivery_system`, and `base_charge = 0`, `base_distance = 0`,
`per_km_rate = 19` in `delivery_utils`. -/
theorem delivery_charge_formula (d amt : ℚ) (h0 : 0 ≤ d)
    (hmax : d ≤ DeliveryUtils.MAX_DELIVERY_DISTANCE_KM)
    (hnotfree : ¬ (DeliveryUtils.FREE_DELIVERY_MIN_AMOUNT ≤ amt ∧
      d ≤ DeliveryUtils.FREE_DELIVERY_MAX_DISTANCE_KM)) :
    (DeliveryUtils.calculate_delivery_charge_from_distance d amt).delivery_charge =
      round2 (0 + max 0 (d - 0) * DeliveryUtils.PRICE_PER_KM_BEYOND_FREE) ∧
    (EnhancedDelivery.calculate_delivery_charge_from_distance d amt).delivery_charge =
      some (round2 (EnhancedDelivery.BASE_DELIVERY_CHARGE +
        max 0 (d - EnhancedDelivery.BASE_DISTANCE_KM) * EnhancedDelivery.DISTANCE_MULTIPLIER)) := by
  rw [DeliveryUtils.MAX_DELIVERY_DISTANCE_KM] at hmax
  rw [DeliveryUtils.FREE_DELIVERY_MIN_AMOUNT, DeliveryUtils.FREE_DELIVERY_MAX_DISTANCE_KM]
    at hnotfree
  have hduA : ¬ (amt ≥ DeliveryUtils.FREE_DELIVERY_MIN_AMOUNT ∧
      d ≤ DeliveryUtils.FREE_DELIVERY_MAX_DISTANCE_KM) := by
    rw [DeliveryUtils.FREE_DELIVERY_MIN_AMOUNT, DeliveryUtils.FREE_DELIVERY_MAX_DISTANCE_KM]
    intro hc
    exact hnotfree ⟨hc.1, hc.2⟩
  have hduB : ¬ d > DeliveryUtils.MAX_DELIVERY_DISTANCE_KM := by
    rw [DeliveryUtils.MAX_DELIVERY_DISTANCE_KM]
    exact not_lt.mpr hmax
  have hedsB : ¬ d > EnhancedDelivery.MAX_DELIVERY_DISTANCE_KM := by
    rw [EnhancedDelivery.MAX_DELIVERY_DISTANCE_KM]
    exact not_lt.mpr hmax
  have hfree : (decide (amt ≥ EnhancedDelivery.FREE_DELIVERY_THRESHOLD ∧
      d ≤ EnhancedDelivery.FREE_DELIVERY_DISTANCE_KM)) = false := by
    rw [EnhancedDelivery.FREE_DELIVERY_THRESHOLD, EnhancedDelivery.FREE_DELIVERY_DISTANCE_KM,
      decide_eq_false_iff_not]
    intro hc
    exact hnotfree ⟨hc.1, hc.2⟩
  constructor
  · rw [DeliveryUtils.calculate_delivery_charge_from_distance, if_neg hduA, if_neg hduB]
    have hm : max 0 (d - 0) = d := by
      rw [sub_zero]
      exact max_eq_right h0
    rw [hm, zero_add, mul_comm]
  · rw [EnhancedDelivery.calculate_delivery_charge_from_distance, if_neg hedsB]
    simp only [hfree, Bool.false_eq_true, if_false, Option.some.injEq]
    rw [EnhancedDelivery.BASE_DISTANCE_KM, EnhancedDelivery.BASE_DELIVERY_CHARGE,
      EnhancedDelivery.DISTANCE_MULTIPLIER]
    by_cases hd5 : d ≤ 5
    · rw [if_pos hd5, max_eq_left (by linarith), zero_mul, add_zero]
    · rw [if_neg hd5, max_eq_right (by linarith)]

/-- Witness for `delivery_charge_formula` at distance 20 km, order ₹100. -/
theorem delivery_charge_formula_witness :
    ((0 : ℚ) ≤ 20 ∧ (20 : ℚ) ≤ DeliveryUtils.MAX_DELIVERY_DISTANCE_KM ∧
      ¬ (DeliveryUtils.FREE_DELIVERY_MIN_AMOUNT ≤ (100 : ℚ) ∧
        (20 : ℚ) ≤ DeliveryUtils.FREE_DELIVERY_MAX_DISTANCE_KM)) ∧
    (DeliveryUtils.calculate_delivery_charge_from_distance 20 100).delivery_charge = 380 ∧
    (EnhancedDelivery.calculate_delivery_charge_from_distance 20 100).delivery_charge =
      some 125 := by
  have h0 : (0 : ℚ) ≤ 20 := by norm_num
  have hmax : (20 : ℚ) ≤ DeliveryUtils.MAX_DELIVERY_DISTANCE_KM := by
    rw [DeliveryUtils.MAX_DELIVERY_DISTANCE_KM]; norm_num
  have hnf : ¬ (DeliveryUtils.FREE_DELIVERY_MIN_AMOUNT ≤ (100 : ℚ) ∧
      (20 : ℚ) ≤ DeliveryUtils.FREE_DELIVERY_MAX_DISTANCE_KM) := by
    rw [DeliveryUtils.FREE_DELIVERY_MIN_AMOUNT]
    rintro ⟨h1, -⟩
    norm_num at h1
  have h := delivery_charge_formula 20 100 h0 hmax hnf
  refine ⟨⟨h0, hmax, hnf⟩, ?_, ?_⟩
  · rw [h.1, DeliveryUtils.PRICE_PER_KM_BEYOND_FREE,
      show (0 : ℚ) + max 0 (20 - 0) * 19 = 380 by norm_num,
      round2_of_mul_eq (n := 38000) (by norm_num)]
    norm_num
  · rw [h.2, EnhancedDelivery.BASE_DELIVERY_CHARGE, EnhancedDelivery.BASE_DISTANCE_KM,
      EnhancedDelivery.DISTANCE_MULTIPLIER,
      show (50 : ℚ) + max 0 (20 - 5) * 5 = 125 by norm_num,
      round2_of_mul_eq (n := 12500) (by norm_num)]
    norm_num

/-! ## C6 — the free-delivery override -/

/-- C6: when the order amount reaches the free threshold (₹1500) and the
distance is within the free radius (10 km, hence within the 50 km maximum),
both implementations force the charge to 0 and mark the quote free,
regardless of the banded formula. -/
theorem free_delivery_override (d amt : ℚ)
    (hamt : DeliveryUtils.FREE_DELIVERY_MIN_AMOUNT ≤ amt)
    (hd : d ≤ DeliveryUtils.FREE_DELIVERY_MAX_DISTANCE_KM) :
    DeliveryUtils.calculate_delivery_charge_from_distance d amt =
      { distance_km := d, delivery_charge := 0, is_free_delivery := true, error := none } ∧
    (EnhancedDelivery.calculate_delivery_charge_from_distance d amt).delivery_charge =
      some 0 ∧
    (EnhancedDelivery.calculate_delivery_charge_from_distance d amt).is_free_delivery =
      true := by
  rw [DeliveryUtils.FREE_DELIVERY_MIN_AMOUNT] at hamt
  rw [DeliveryUtils.FREE_DELIVERY_MAX_DISTANCE_KM] at hd
  refine ⟨?_, ?_⟩
  · rw [DeliveryUtils.calculate_delivery_charge_from_distance, if_pos]
    rw [DeliveryUtils.FREE_DELIVERY_MIN_AMOUNT, DeliveryUtils.FREE_DELIVERY_MAX_DISTANCE_KM]
    exact ⟨hamt, hd⟩
  · have hmax : ¬ d > EnhancedDelivery.MAX_DELIVERY_DISTANCE_KM := by
      rw [EnhancedDelivery.MAX_DELIVERY_DISTANCE_KM]
      push_neg
      linarith
    have hfree : (decide (amt ≥ EnhancedDelivery.FREE_DELIVERY_THRESHOLD ∧
        d ≤ EnhancedDelivery.FREE_DELIVERY_DISTANCE_KM)) = true := by
      rw [EnhancedDelivery.FREE_DELIVERY_THRESHOLD, EnhancedDelivery.FREE_DELIVERY_DISTANCE_KM]
      simp only [ge_iff_le, decide_eq_true_eq]
      exact ⟨hamt, hd⟩
    rw [EnhancedDelivery.calculate_delivery_charge_from_distance, if_neg hmax]
    simp [hfree, round2_zero]

/-- Witness for `free_delivery_override` at distance 5 km, order ₹2000. -/
theorem free_delivery_override_witness :
    (DeliveryUtils.FREE_DELIVERY_MIN_AMOUNT ≤ (2000 : ℚ) ∧
      (5 : ℚ) ≤ DeliveryUtils.FREE_DELIVERY_MAX_DISTANCE_KM) ∧
    (DeliveryUtils.calculate_delivery_charge_from_distance 5 2000).delivery_charge = 0 ∧
    (EnhancedDelivery.calculate_delivery_charge_from_distance 5 2000).delivery_charge =
      some 0 := by
  have hamt : DeliveryUtils.FREE_DELIVERY_MIN_AMOUNT ≤ (2000 : ℚ) := by
    rw [DeliveryUtils.FREE_DELIVERY_MIN_AMOUNT]; norm_num
  have hd : (5 : ℚ) ≤ DeliveryUtils.FREE_DELIVERY_MAX_DISTANCE_KM := by
    rw [DeliveryUtils.FREE_DELIVERY_MAX_DISTANCE_KM]; norm_num
  have h := free_delivery_override 5 2000 hamt hd
  exact ⟨⟨hamt, hd⟩, by rw [h.1], h.2.1⟩

/-! ## C7 — unknown coupon codes fail the whole request -/

/-- C7: when no stored coupon's code equals the request's upper-cased code
(stored codes are upper-cased on creation, so this is the case-insensitive
non-match), `POST /coupons/apply` fails with 404 "Invalid coupon code" and
no discount result is produced. -/
theorem apply_coupon_unknown_code (coupons : List Server.Coupon) (now : ℚ)
    (user_usage_count : ℕ) (req : Server.CouponApply)
    (cart_products : List Server.SProduct)
    (h : ∀ c ∈ coupons, c.code ≠ req.code.toUpper) :
    Server.apply_coupon coupons now user_usage_count req cart_products =
      Except.error ⟨404, "Invalid coupon code"⟩ := by
  have hfind : coupons.find? (fun c => c.code == req.code.toUpper) = none := by
    rw [List.find?_eq_none]
    intro c hc
    simpa using h c hc
  rw [Server.apply_coupon, hfind]

/-- Witness for `apply_coupon_unknown_code`: code "SAVE20" against a store
holding no coupons. -/
theorem apply_coupon_unknown_code_witness :
    (∀ c ∈ ([] : List Server.Coupon), c.code ≠ Examples.unknownReq.code.toUpper) ∧
    Server.apply_coupon [] 50 0 Examples.unknownReq [] =
      Except.error ⟨404, "Invalid coupon code"⟩ := by
  have h : ∀ c ∈ ([] : List Server.Coupon), c.code ≠ Examples.unknownReq.code.toUpper := by
    intro c hc
    simp at hc
  exact ⟨h, apply_coupon_unknown_code [] 50 0 Examples.unknownReq [] h⟩

/-! ## C10 — per-item clamping in the auto-offer engine -/

/-- C10: whenever `apply_offers_to_cart` returns a result, every reported
item carries `final_price = max(0, price - item_discount)` — hence a
nonnegative final price even when the stacked discounts exceed the item's
price — while `total_discount` is the plain (unclamped) sum of the item
discounts. -/
theorem offers_final_price_clamped (offers : List OffersSystem.Offer)
    (cart : List OffersSystem.OItem) (res : OffersSystem.OffersResult)
    (h : OffersSystem.apply_offers_to_cart offers cart = some res) :
    (∀ out ∈ res.items,
      out.final_price = max 0 (out.item.price - out.offer_discount) ∧
      0 ≤ out.final_price) ∧
    res.total_discount = (res.items.map (·.offer_discount)).sum := by
  induction cart generalizing res with
  | nil =>
    simp only [OffersSystem.apply_offers_to_cart, Option.some.injEq] at h
    subst h
    simp
  | cons item rest ih =>
    rw [OffersSystem.apply_offers_to_cart] at h
    cases hloop : OffersSystem.offerLoop item offers 0 false with
    | none => rw [hloop] at h; cases h
    | some d =>
      rw [hloop] at h
      cases hrest : OffersSystem.apply_offers_to_cart offers rest with
      | none => rw [hrest] at h; cases h
      | some r =>
        rw [hrest] at h
        simp only [Option.bind_eq_bind, Option.some_bind, Option.some.injEq] at h
        obtain ⟨hitems, htotal⟩ := ih r hrest
        cases h
        constructor
        · intro out hout
          rcases List.mem_cons.mp hout with hhead | htail
          · subst hhead
            exact ⟨rfl, le_max_left _ _⟩
          · exact hitems out htail
        · simp [htotal]

/-- Witness for `offers_final_price_clamped`: one item priced ₹100 against
two stacked global flat ₹80 offers — the item's discount is 160, its
reported final price is clamped to 0, and the reported total discount is
the unclamped 160. -/
theorem offers_final_price_clamped_witness :
    OffersSystem.apply_offers_to_cart [Examples.flat80Offer, Examples.flat80Offer]
        [Examples.offerItem] =
      some { items := [{ item := Examples.offerItem, offer_discount := 160,
                         final_price := 0 }],
             total_discount := 160 } ∧
    (∀ out ∈ [{ item := Examples.offerItem, offer_discount := (160 : ℚ),
                final_price := (0 : ℚ) }],
      OffersSystem.OItemOut.final_price out =
        max 0 (out.item.price - out.offer_discount) ∧
      0 ≤ OffersSystem.OItemOut.final_price out) := by
  have heval : OffersSystem.apply_offers_to_cart
      [Examples.flat80Offer, Examples.flat80Offer] [Examples.offerItem] =
      some { items := [{ item := Examples.offerItem, offer_discount := 160,
                         final_price := 0 }],
             total_discount := 160 } := by
    simp [OffersSystem.apply_offers_to_cart, OffersSystem.offerLoop,
      OffersSystem.calculate_offer_discount, Examples.flat80Offer, Examples.offerItem,
      min_def, max_def]
    norm_num
  have h := offers_final_price_clamped _ _ _ heval
  exact ⟨heval, h.1⟩

/-! ## C8 — reconciling away a missing product -/

theorem validate_cart_items_all_clean (products : List CartSync.CSProduct)
    (l : List CartSync.CartItemModel)
    (h : ∀ i ∈ l, CartSync.validate_item products i = .valid i none) :
    CartSync.validate_cart_items products l =
      { valid_items := l, invalid_items := [],
        total_amount := (l.map fun i => i.price * (i.quantity : ℚ)).sum,
        warnings := [] } := by
  induction l with
  | nil => simp [CartSync.validate_cart_items]
  | cons item rest ih =>
    rw [CartSync.validate_cart_items, h item (List.mem_cons_self item rest),
      ih fun i hi => h i (List.mem_cons_of_mem _ hi)]
    simp

/-- C8 (amended): reconciling a cart in which exactly one line references a
product absent from the snapshot (all other lines valid with current
prices) keeps every other line in order, records the missing line as the
single `invalid_items` entry with reason "Product not found", and emits no
entry in the `warnings` list — warnings are reserved for price-drift
corrections, so the removal is reported through `invalid_items`, not
through a warning. -/
theorem missing_product_reconciliation (products : List CartSync.CSProduct)
    (pre post : List CartSync.CartItemModel) (bad : CartSync.CartItemModel)
    (hvalid : ∀ i ∈ pre ++ post, CartSync.validate_item products i = .valid i none)
    (hbad : products.find? (fun p => p.id == bad.product_id) = none) :
    CartSync.validate_cart_items products (pre ++ bad :: post) =
      { valid_items := pre ++ post,
        invalid_items := [(bad, "Product not found")],
        total_amount := ((pre ++ post).map fun i => i.price * (i.quantity : ℚ)).sum,
        warnings := [] } := by
  have hbaditem : CartSync.validate_item products bad = .invalid "Product not found" := by
    rw [CartSync.validate_item, hbad]
  induction pre with
  | nil =>
    rw [List.nil_append, CartSync.validate_cart_items, hbaditem,
      validate_cart_items_all_clean products post fun i hi => hvalid i (by simpa using hi)]
    simp
  | cons p pre' ih =>
    rw [List.cons_append, CartSync.validate_cart_items,
      hvalid p (List.mem_cons_self p _),
      ih fun i hi => hvalid i (List.mem_cons_of_mem _ (by simpa using hi))]
    simp

/-- Witness for `missing_product_reconciliation`: cart `[csGood, csBad]`
against a snapshot containing only `csGood`'s product. -/
theorem missing_product_reconciliation_witness :
    ((∀ i ∈ [Examples.csGood], CartSync.validate_item Examples.csProducts i = .valid i none) ∧
      Examples.csProducts.find? (fun p => p.id == Examples.csBad.product_id) = none) ∧
    CartSync.validate_cart_items Examples.csProducts [Examples.csGood, Examples.csBad] =
      { valid_items := [Examples.csGood],
        invalid_items := [(Examples.csBad, "Product not found")],
        total_amount := 200, warnings := [] } := by
  have hgood : CartSync.validate_item Examples.csProducts Examples.csGood =
      .valid Examples.csGood none := by
    simp [CartSync.validate_item, Examples.csProducts, Examples.csGood]
  have hvalid : ∀ i ∈ [Examples.csGood],
      CartSync.validate_item Examples.csProducts i = .valid i none := by
    intro i hi
    rw [List.mem_singleton] at hi
    subst hi
    exact hgood
  have hbad : Examples.csProducts.find? (fun p => p.id == Examples.csBad.product_id) =
      none := by
    simp [Examples.csProducts, Examples.csBad]
  have h := missing_product_reconciliation Examples.csProducts [Examples.csGood] []
    Examples.csBad (by simpa using hvalid) hbad
  refine ⟨⟨hvalid, hbad⟩, ?_⟩
  rw [show [Examples.csGood, Examples.csBad] =
      [Examples.csGood] ++ Examples.csBad :: [] from rfl, h]
  norm_num [Examples.csGood]

/-- Counterexample to C8 as stated: for the cart `[csGood, csBad]` — where
exactly `csBad` references a missing product and `csGood` is valid — the
result's `warnings` list is empty, not of length one; the removal is
reported only through `invalid_items`. -/
theorem missing_product_zero_warnings :
    (CartSync.validate_cart_items Examples.csProducts
        [Examples.csGood, Examples.csBad]).warnings = [] ∧
    (CartSync.validate_cart_items Examples.csProducts
        [Examples.csGood, Examples.csBad]).warnings.length ≠ 1 ∧
    (CartSync.validate_cart_items Examples.csProducts
        [Examples.csGood, Examples.csBad]).invalid_items =
      [(Examples.csBad, "Product not found")] ∧
    (CartSync.validate_cart_items Examples.csProducts
        [Examples.csGood, Examples.csBad]).valid_items = [Examples.csGood] := by
  have heval : CartSync.validate_cart_items Examples.csProducts
      [Examples.csGood, Examples.csBad] =
      { valid_items := [Examples.csGood],
        invalid_items := [(Examples.csBad, "Product not found")],
        total_amount := 200, warnings := [] } := by
    simp [CartSync.validate_cart_items, CartSync.validate_item,
      Examples.csProducts, Examples.csGood, Examples.csBad]
    norm_num
  rw [heval]
  norm_num

/-! ## C3 and C4 — standard-coupon discount and final amount -/

theorem round2_intCast (n : ℤ) : round2 ((n : ℚ)) = (n : ℚ) := by
  have h : ((n : ℚ)) * 100 = ((n * 100 : ℤ) : ℚ) := by push_cast; ring
  rw [round2_of_mul_eq h]
  push_cast
  ring

theorem applyCap_le (cap : Option ℚ) (d : ℚ) : Server.applyCap cap d ≤ d := by
  rw [Server.applyCap]
  split_ifs
  · exact min_le_left _ _
  · exact le_refl d

theorem applyCap_nonneg (cap : Option ℚ) (d : ℚ) (hd : 0 ≤ d)
    (hm : ∀ m ∈ cap, 0 ≤ m) : 0 ≤ Server.applyCap cap d := by
  rw [Server.applyCap]
  split_ifs with h
  · cases cap with
    | none => simpa using hd
    | some m => exact le_min hd (by simpa using hm m (by simp))
  · exact hd

theorem standard_finish_flat (c : Server.Coupon) (req : Server.CouponApply)
    (base : ℚ) (r : Server.CouponResult) (a : ℚ)
    (ht : c.discount_type = .flat) (ha : c.discount_amount = some a) (hnz : a ≠ 0)
    (h : Server.standard_finish c req base = .ok r) :
    r = { valid := true, discount_type := "flat",
          discount_amount := round2 (Server.applyCap c.max_discount_amount a),
          final_amount := round2 (req.order_amount - Server.applyCap c.max_discount_amount a),
          discount_percentage := none, free_items_count := none,
          delivery_discount := none } := by
  rw [Server.standard_finish, if_pos ⟨ht, by rw [ha]; simpa [Server.truthy] using hnz⟩,
    Server.standard_return, ha] at h
  have hv : Server.CouponType.value c.discount_type = "flat" := by
    rw [ht]
    rfl
  have hpct : (if c.discount_type = Server.CouponType.percentage
      then c.discount_percentage else none) = none := by
    rw [ht]
    simp
  simp only [Option.getD_some, hv, hpct, Except.ok.injEq] at h
  exact h.symm

/-- C4 (amended): for a flat-amount coupon (`discount_amount = a`, nonzero)
that the standard handler accepts, the computed discount is `a` itself —
reduced to `max_discount_amount` when that cap is set and nonzero
(`applyCap`), but never compared with the eligible base, which it may
therefore exceed; the discount is nonnegative whenever the coupon's
`discount_amount` and cap are nonnegative. -/
theorem flat_discount_formula (c : Server.Coupon) (req : Server.CouponApply)
    (r : Server.CouponResult) (a : ℚ)
    (ht : c.discount_type = .flat) (ha : c.discount_amount = some a) (hnz : a ≠ 0)
    (hok : Server.apply_standard_coupon c req = .ok r) :
    r.discount_amount = round2 (Server.applyCap c.max_discount_amount a) ∧
    r.final_amount = round2 (req.order_amount - Server.applyCap c.max_discount_amount a) ∧
    (0 ≤ a → (∀ m ∈ c.max_discount_amount, 0 ≤ m) → 0 ≤ r.discount_amount) := by
  have hfin : ∀ base, Server.standard_finish c req base = .ok r →
      r.discount_amount = round2 (Server.applyCap c.max_discount_amount a) ∧
      r.final_amount = round2 (req.order_amount - Server.applyCap c.max_discount_amount a) ∧
      (0 ≤ a → (∀ m ∈ c.max_discount_amount, 0 ≤ m) → 0 ≤ r.discount_amount) := by
    intro base hb
    have hr := standard_finish_flat c req base r a ht ha hnz hb
    subst hr
    refine ⟨rfl, rfl, fun h0 hm => ?_⟩
    exact round2_nonneg (applyCap_nonneg _ _ h0 hm)
  rw [Server.apply_standard_coupon] at hok
  split_ifs at hok
  all_goals first
    | exact absurd hok (by simp)
    | exact hfin _ hok

/-- Evaluation of the ₹500 flat coupon against the ₹200 global order. -/
theorem flat_coupon_eval :
    Server.apply_standard_coupon Examples.flatCoupon Examples.flatReq =
      .ok Examples.flatResult := by
  have h1 : round2 ((500 : ℚ)) = 500 := by
    rw [round2_of_mul_eq (n := 50000) (by norm_num)]
    norm_num
  have h2 : round2 ((-300 : ℚ)) = -300 := by
    rw [round2_of_mul_eq (n := -30000) (by norm_num)]
    norm_num
  rw [Server.apply_standard_coupon]
  norm_num [Examples.flatCoupon, Examples.flatReq, Examples.couponBase,
    Examples.flatResult, Server.standard_finish, Server.truthy, Server.applyCap,
    Server.standard_return, Server.CouponType.value, h1, h2]

/-- Witness for `flat_discount_formula` via the ₹500-on-₹200 example. -/
theorem flat_discount_formula_witness :
    (Examples.flatCoupon.discount_type = .flat ∧
      Examples.flatCoupon.discount_amount = some 500 ∧ (500 : ℚ) ≠ 0 ∧
      Server.apply_standard_coupon Examples.flatCoupon Examples.flatReq =
        .ok Examples.flatResult) ∧
    Examples.flatResult.discount_amount =
      round2 (Server.applyCap Examples.flatCoupon.max_discount_amount 500) :=
  ⟨⟨rfl, rfl, by norm_num, flat_coupon_eval⟩,
    (flat_discount_formula Examples.flatCoupon Examples.flatReq Examples.flatResult 500
      rfl rfl (by norm_num) flat_coupon_eval).1⟩

/-- Counterexample to C4 as stated: the ₹500 flat coupon on a ₹200
global-scope order yields discount 500, not `min(flat_amount,
eligible_base) = min(500, 200) = 200`. -/
theorem flat_exceeds_base :
    (Server.apply_standard_coupon Examples.flatCoupon Examples.flatReq).map
        (·.discount_amount) = .ok 500 ∧
    ¬ ((500 : ℚ) = min 500 Examples.flatReq.order_amount) := by
  constructor
  · rw [flat_coupon_eval]
    rfl
  · show ¬ ((500 : ℚ) = min 500 200)
    norm_num [min_def]

/-- Counterexample to C3 as stated: the same ₹500 flat coupon on the ₹200
order is accepted and quotes `final_amount = -300 < 0` — no clamp to zero
exists in the code. -/
theorem final_amount_negative :
    (Server.apply_standard_coupon Examples.flatCoupon Examples.flatReq).map
        (·.final_amount) = .ok (-300) ∧ ((-300 : ℚ) < 0) := by
  constructor
  · rw [flat_coupon_eval]
    rfl
  · norm_num

/-- C3 (amended): the quoted `final_amount` is `round(order_amount -
discount, 2)` with no clamping, so it can go below zero (see
`final_amount_negative`); nonnegativity does hold for the global-scope
percentage path, where the discount is at most `order_amount * pct / 100 ≤
order_amount`. -/
theorem percentage_global_final_nonneg (c : Server.Coupon) (req : Server.CouponApply)
    (r : Server.CouponResult) (p : ℕ)
    (hp : c.product_ids = []) (ht : c.discount_type = .percentage)
    (hpct : c.discount_percentage = some p) (hle : p ≤ 100)
    (hamt : 0 ≤ req.order_amount)
    (hok : Server.apply_standard_coupon c req = .ok r) :
    0 ≤ r.final_amount := by
  rw [Server.apply_standard_coupon, if_neg (by simp [hp])] at hok
  split_ifs at hok
  · rw [Server.standard_finish,
      if_neg (fun hc => by rw [ht] at hc; exact absurd hc.1 (by simp)), hpct] at hok
    simp only [Server.standard_return, Except.ok.injEq] at hok
    rw [← hok]
    apply round2_nonneg
    have h1 : req.order_amount * (p : ℚ) ≤ req.order_amount * 100 :=
      mul_le_mul_of_nonneg_left (by exact_mod_cast hle) hamt
    have h2 : req.order_amount * (p : ℚ) / 100 ≤ req.order_amount := by
      rw [div_le_iff₀ (by norm_num : (0 : ℚ) < 100)]
      exact h1
    have h3 := applyCap_le c.max_discount_amount (req.order_amount * (p : ℚ) / 100)
    linarith

/-- Evaluation of the global 10% coupon against the ₹1000 order. -/
theorem pct_coupon_eval :
    Server.apply_standard_coupon Examples.pctCoupon Examples.pctReq =
      .ok Examples.pctResult := by
  have h1 : round2 ((100 : ℚ)) = 100 := by
    rw [round2_of_mul_eq (n := 10000) (by norm_num)]
    norm_num
  have h2 : round2 ((900 : ℚ)) = 900 := by
    rw [round2_of_mul_eq (n := 90000) (by norm_num)]
    norm_num
  rw [Server.apply_standard_coupon]
  norm_num [Examples.pctCoupon, Examples.pctReq, Examples.couponBase,
    Examples.pctResult, Server.standard_finish, Server.truthy, Server.applyCap,
    Server.standard_return, Server.CouponType.value, h1, h2]

/-- Witness for `percentage_global_final_nonneg`: 10% off ₹1000 quotes a
final amount of 900 ≥ 0. -/
theorem percentage_global_final_nonneg_witness :
    (Examples.pctCoupon.product_ids = [] ∧
      Examples.pctCoupon.discount_type = .percentage ∧
      Examples.pctCoupon.discount_percentage = some 10 ∧ 10 ≤ 100 ∧
      (0 : ℚ) ≤ Examples.pctReq.order_amount ∧
      Server.apply_standard_coupon Examples.pctCoupon Examples.pctReq =
        .ok Examples.pctResult) ∧
    0 ≤ Examples.pctResult.final_amount :=
  ⟨⟨rfl, rfl, rfl, by norm_num, by norm_num [Examples.pctReq], pct_coupon_eval⟩,
    percentage_global_final_nonneg Examples.pctCoupon Examples.pctReq
      Examples.pctResult 10 rfl rfl rfl (by norm_num)
      (by norm_num [Examples.pctReq]) pct_coupon_eval⟩

/-! ## C1 — BuyXGetY discount -/

instance : IsTotal Server.CartItem fun x y => x.price ≤ y.price :=
  ⟨fun a b => le_total a.price b.price⟩

instance : IsTrans Server.CartItem fun x y => x.price ≤ y.price :=
  ⟨fun _ _ _ hab hbc => le_trans hab hbc⟩

theorem bxgyLoop_eq_take_sum (l : List Server.CartItem) (n : ℕ) :
    Server.bxgyLoop l n = ((Server.unitPrices l).take n).sum := by
  induction l generalizing n with
  | nil => cases n <;> simp [Server.bxgyLoop, Server.unitPrices]
  | cons i rest ih =>
    cases n with
    | zero => simp [Server.bxgyLoop]
    | succ m =>
      rw [show Server.bxgyLoop (i :: rest) (m + 1) =
          i.price * ((min (m + 1) i.quantity : ℕ) : ℚ) +
            Server.bxgyLoop rest ((m + 1) - min (m + 1) i.quantity) from rfl]
      rw [ih, show Server.unitPrices (i :: rest) =
          List.replicate i.quantity i.price ++ Server.unitPrices rest from by
            simp [Server.unitPrices]]
      rw [List.take_append_eq_append_take, List.sum_append, List.take_replicate,
        List.sum_replicate, nsmul_eq_mul, List.length_replicate,
        show (m + 1) - min (m + 1) i.quantity = (m + 1) - i.quantity from by omega]
      ring

theorem mem_unitPrices {l : List Server.CartItem} {x : ℚ}
    (hx : x ∈ Server.unitPrices l) : ∃ i ∈ l, x = i.price := by
  rw [Server.unitPrices, List.mem_flatMap] at hx
  obtain ⟨i, hi, hmem⟩ := hx
  exact ⟨i, hi, List.eq_of_mem_replicate hmem⟩

theorem sorted_unitPrices {l : List Server.CartItem}
    (h : List.Sorted (fun x y => x.price ≤ y.price) l) :
    List.Sorted (· ≤ ·) (Server.unitPrices l) := by
  induction l with
  | nil => simp [Server.unitPrices]
  | cons i rest ih =>
    rw [List.sorted_cons] at h
    rw [show Server.unitPrices (i :: rest) =
        List.replicate i.quantity i.price ++ Server.unitPrices rest from by
          simp [Server.unitPrices]]
    rw [List.Sorted, List.pairwise_append]
    refine ⟨List.pairwise_replicate.mpr (Or.inr (le_refl _)), ih h.2, ?_⟩
    intro x hx y hy
    obtain rfl := List.eq_of_mem_replicate hx
    obtain ⟨j, hj, rfl⟩ := mem_unitPrices hy
    exact h.1 j hj

theorem unitPrices_insertionSort_eq (l : List Server.CartItem) :
    Server.unitPrices (List.insertionSort (fun x y => x.price ≤ y.price) l) =
      List.insertionSort (· ≤ ·) (Server.unitPrices l) := by
  refine List.eq_of_perm_of_sorted (r := fun x y : ℚ => x ≤ y) ?_ ?_ ?_
  · exact (List.Perm.flatMap_right _ (List.perm_insertionSort _ l)).trans
      (List.perm_insertionSort _ (Server.unitPrices l)).symm
  · exact sorted_unitPrices (List.sorted_insertionSort _ l)
  · exact List.sorted_insertionSort _ _

theorem bxgyLoop_sorted_eq_cheapest (eligible : List Server.CartItem) (n : ℕ) :
    Server.bxgyLoop
        (List.insertionSort (fun x y : Server.CartItem => x.price ≤ y.price) eligible) n =
      Server.cheapestUnitsTotal eligible n := by
  rw [bxgyLoop_eq_take_sum, unitPrices_insertionSort_eq, Server.cheapestUnitsTotal]

/-- C1 (amended): for a buy-x-get-y coupon with `buy_quantity = b ≥ 1` and
`get_quantity = g ≥ 1` (the code rejects `g = 0` — Python falsiness — as
invalid configuration, see `bxgy_get_zero_rejected`) and a nonempty cart,
with `eligible_qty` the sum of quantities of the cart lines in the buy
scope (the catalog-backed whole cart when `buy_product_ids` is empty):
if `eligible_qty < b` the coupon is reported not applicable (a 400
rejection), and otherwise the discount equals the total price of the
`floor(eligible_qty / b) * g` cheapest eligible units taken in ascending
unit-price order (all eligible units when that count exceeds
`eligible_qty`), with `final_amount = round2 (order_amount - discount)`. -/
theorem bxgy_eval (c : Server.Coupon) (req : Server.CouponApply)
    (cart_products : List Server.SProduct) (b g : ℕ)
    (hb : c.buy_quantity = some b) (hg : c.get_quantity = some g)
    (hb1 : 1 ≤ b) (hg1 : 1 ≤ g) (hcart : ¬ req.cart_items = []) :
    (((Server.eligibleItems c req cart_products).map (·.quantity)).sum < b →
      ∃ e, Server.apply_buy_x_get_y_coupon c req cart_products = .error e ∧
        e.status = 400) ∧
    (b ≤ ((Server.eligibleItems c req cart_products).map (·.quantity)).sum →
      Server.apply_buy_x_get_y_coupon c req cart_products =
        .ok { valid := true, discount_type := "buy_x_get_y",
              discount_amount := round2 (Server.cheapestUnitsTotal
                (Server.eligibleItems c req cart_products)
                (((Server.eligibleItems c req cart_products).map (·.quantity)).sum
                  / b * g)),
              final_amount := round2 (req.order_amount - Server.cheapestUnitsTotal
                (Server.eligibleItems c req cart_products)
                (((Server.eligibleItems c req cart_products).map (·.quantity)).sum
                  / b * g)),
              discount_percentage := none,
              free_items_count := some
                (((Server.eligibleItems c req cart_products).map (·.quantity)).sum
                  / b * g),
              delivery_discount := none }) := by
  have hbz : c.buy_quantity.getD 0 = b := by rw [hb]; rfl
  have hgz : c.get_quantity.getD 0 = g := by rw [hg]; rfl
  have hguard : ¬ (c.buy_quantity.getD 0 = 0 ∨ c.get_quantity.getD 0 = 0) := by
    rw [hbz, hgz]
    push_neg
    omega
  constructor
  · intro hlt
    by_cases he : Server.eligibleItems c req cart_products = []
    · refine ⟨⟨400, "No eligible products found for this offer"⟩, ?_, rfl⟩
      rw [Server.apply_buy_x_get_y_coupon, if_neg hguard, if_neg hcart, if_pos he]
    · refine ⟨⟨400, "Buy at least " ++ toString b ++ " eligible items to get " ++
        toString g ++ " free"⟩, ?_, rfl⟩
      rw [Server.apply_buy_x_get_y_coupon, if_neg hguard, if_neg hcart, if_neg he,
        if_pos (by rw [hbz]; exact hlt), hbz, hgz]
  · intro hge
    have he : ¬ Server.eligibleItems c req cart_products = [] := by
      intro he0
      rw [he0] at hge
      simp only [List.map_nil, List.sum_nil] at hge
      omega
    rw [Server.apply_buy_x_get_y_coupon, if_neg hguard, if_neg hcart, if_neg he,
      if_neg (by rw [hbz]; exact not_lt.mpr hge), hbz, hgz,
      bxgyLoop_sorted_eq_cheapest]

/-- Counterexample to C1 as stated (which allows `g = 0`, expecting a valid
result discounting `floor(2/2)·0 = 0` units): with `buy_quantity = 2`,
`get_quantity = 0` and an eligible quantity of 2, the code rejects the
coupon as invalid configuration instead of computing a zero discount. -/
theorem bxgy_get_zero_rejected :
    Server.apply_buy_x_get_y_coupon Examples.bxgyZeroCoupon Examples.bxgyZeroReq
        Examples.bxgyProds =
      .error ⟨400, "Invalid Buy X Get Y coupon configuration"⟩ := by
  have hz : Examples.bxgyZeroCoupon.buy_quantity.getD 0 = 0 ∨
      Examples.bxgyZeroCoupon.get_quantity.getD 0 = 0 := Or.inr rfl
  rw [Server.apply_buy_x_get_y_coupon, if_pos hz]

/-- Witness for `bxgy_eval`: the spec's own example — buy 2 get 1 over
eligible units priced 100, 150, 200 (quantity 1 each) — yields one free
unit, discount 100, and 450 → 350. -/
theorem bxgy_eval_witness :
    Server.apply_buy_x_get_y_coupon Examples.bxgyCoupon Examples.bxgyReq
        Examples.bxgyProds = .ok Examples.bxgyResult := by
  have helig : Server.eligibleItems Examples.bxgyCoupon Examples.bxgyReq
      Examples.bxgyProds = Examples.bxgyCart := by
    simp [Server.eligibleItems, Server.buyScope, Examples.bxgyCoupon,
      Examples.bxgyReq, Examples.bxgyProds, Examples.bxgyCart, Examples.couponBase,
      List.filter_eq_self]
  have h := (bxgy_eval Examples.bxgyCoupon Examples.bxgyReq Examples.bxgyProds 2 1
    rfl rfl (by norm_num) (by norm_num)
    (by simp [Examples.bxgyReq, Examples.bxgyCart])).2
  rw [helig] at h
  have hq : ((Examples.bxgyCart.map (·.quantity)).sum) = 3 := by
    simp [Examples.bxgyCart]
  rw [hq] at h
  have h2 := h (by norm_num)
  have hcheap : Server.cheapestUnitsTotal Examples.bxgyCart (3 / 2 * 1) = 100 := by
    have hunit : Server.unitPrices Examples.bxgyCart = [100, 150, 200] := by
      simp [Server.unitPrices, Examples.bxgyCart]
    rw [Server.cheapestUnitsTotal, hunit, show (3 : ℕ) / 2 * 1 = 1 from rfl]
    norm_num [List.insertionSort, List.orderedInsert]
  rw [h2, Examples.bxgyResult]
  have hd : round2 ((100 : ℚ)) = 100 := by
    rw [round2_of_mul_eq (n := 10000) (by norm_num)]
    norm_num
  have hf : round2 (Examples.bxgyReq.order_amount - (100 : ℚ)) = 350 := by
    show round2 ((450 : ℚ) - 100) = 350
    rw [round2_of_mul_eq (n := 35000) (by norm_num)]
    norm_num
  rw [hcheap, hd, hf]
